import Mathlib

/-!
Verification development for the iotconnect.golang publisher library.

The Go source is shallowly embedded: pure computations become Lean
functions, ambient effects (current time, key generation, file I/O,
cryptographic primitives, the message bus) become explicit parameters or
explicit result values, and functions that log-and-return become functions
that return the unchanged state.  Machine integers from Go (`int`) are
embedded as `Int`.
-/

namespace IotConnect

/-- Modelled from the spec: the reserved trailing message-type token for
input-set commands (`types.MessageTypeSetInput`); the spec's address shapes
and the source comment `zone/pub/node/inputtype/instance/$set` give the
token the form `$set`. -/
def MessageTypeSetInput : String := "$set"

/-- Modelled from the spec: the reserved trailing message-type token for
node-configure commands (`types.MessageTypeConfigure`); the spec's address
shapes and the source comment `domain/publisherID/nodeID/$configure` give
it the form `$configure`. -/
def MessageTypeConfigure : String := "$configure"

/-- Modelled from the spec: the publisher id of the trusted issuing
authority (`types.DSSPublisherID`, the "DSS"). The concrete token is not
in the sources; any fixed string works for the claims below. -/
def DSSPublisherID : String := "$dss"

/-- Modelled from the spec: `publishers.MakePublisherIdentityAddress`
builds the deterministic publisher identity address
`domain/publisherID/$identity` (spec section 6, and the test fixtures
`fmt.Sprintf("%s/%s/$identity", domain, publisher1ID)`). -/
def MakePublisherIdentityAddress (domain publisherID : String) : String :=
  domain ++ "/" ++ publisherID ++ "/$identity"

/-- Modelled from the spec: ECDSA keys are embedded as their PEM strings,
so `messenger.PrivateKeyFromPem` is the identity on that representation. -/
def PrivateKeyFromPem (pem : String) : String := pem

/-- Modelled from the spec: `messenger.PrivateKeyToPem` on the PEM
representation of a key. -/
def PrivateKeyToPem (pem : String) : String := pem

/-- Modelled from the spec: `messenger.SignEncodeIdentity` produces a
base64 signature over the public identity with the private key; embedded
as an opaque-but-executable tag of its inputs. -/
def SignEncodeIdentity (publicKeyPem privateKeyPem : String) : String :=
  "sig(" ++ publicKeyPem ++ "," ++ privateKeyPem ++ ")"

/-- `types.PublisherPublicIdentity`: the public part of a publisher
identity (fields as in `CreateIdentity`, src/unnamed/part_002). -/
structure PublisherPublicIdentity where
  Domain : String
  IssuerName : String
  Location : String
  Organization : String
  PublicKey : String
  PublisherID : String
  Timestamp : String
  ValidUntil : String
  deriving Repr, DecidableEq

/-- `types.PublisherFullIdentity`: the embedded
`PublisherIdentityMessage` (address, public part, signature, signer,
timestamp, sender) plus the PEM private key. `Sender` is filled in by
`messenger.VerifySender` on reception; `CreateIdentity` leaves it empty. -/
structure PublisherFullIdentity where
  Address : String
  Public : PublisherPublicIdentity
  IdentitySignature : String
  SignerName : String
  Timestamp : String
  Sender : String
  PrivateKey : String
  deriving Repr, DecidableEq

/-- `IsIdentityExpired` (src/unnamed/part_002 lines 107-112): the current
time is ambient in Go (`time.Now().Format(types.TimeFormat)`); it is an
explicit `nowStr` parameter here.  Go's `strings.Compare(a, b) > 0` is
the lexical comparison `compare a b = .gt`. -/
def IsIdentityExpired (nowStr : String) (identity : PublisherPublicIdentity) : Bool :=
  compare nowStr identity.ValidUntil = Ordering.gt

/-- `CreateIdentity` (src/unnamed/part_002 lines 60-105).  Ambient
inputs are explicit: `nowStr`/`validUntilStr` are the two formatted
timestamps, and `keygen` is the result of `ecdsa.GenerateKey` as a
(privatePEM, publicPEM) pair, `none` on failure.  On keygen failure the
Go code panics ("Unable to generate a private signing key. Can't
continue without it."), embedded as the `none` result: no identity is
ever produced. -/
def CreateIdentity (domain publisherID : String) (nowStr validUntilStr : String)
    (keygen : Option (String × String)) : Option (PublisherFullIdentity × String) :=
  match keygen with
  | none => none
  | some (privPem, pubPem) =>
    let addr := MakePublisherIdentityAddress domain publisherID
    let publicIdentity : PublisherPublicIdentity :=
      { Domain := domain
        IssuerName := publisherID
        Location := "local"
        Organization := ""
        PublicKey := pubPem
        PublisherID := publisherID
        Timestamp := nowStr
        ValidUntil := validUntilStr }
    let identitySignature := SignEncodeIdentity pubPem privPem
    let fullIdentity : PublisherFullIdentity :=
      { Address := addr
        Public := publicIdentity
        IdentitySignature := identitySignature
        SignerName := publisherID
        Timestamp := nowStr
        Sender := ""
        PrivateKey := PrivateKeyToPem privPem }
    some (fullIdentity, privPem)

/-- `SetupPublisherIdentity` (src/unnamed/part_002 lines 172-199).
The file load (`LoadIdentity`) is I/O and is passed in as its result:
`none` stands for `err != nil`.  The returned `Bool` records whether the
regenerate-and-persist branch (`CreateIdentity` + `SaveIdentity`) was
taken.  The whole result is `Option` because `CreateIdentity` panics on
keygen failure. -/
def SetupPublisherIdentity
    (loadResult : Option (PublisherFullIdentity × String))
    (domain publisherID : String) (nowStr validUntilStr : String)
    (keygen : Option (String × String)) :
    Option ((PublisherFullIdentity × String) × Bool) :=
  let identityAddress := MakePublisherIdentityAddress domain publisherID
  match loadResult with
  | none =>
    (CreateIdentity domain publisherID nowStr validUntilStr keygen).map (fun p => (p, true))
  | some (fullIdentity, privKey) =>
    if fullIdentity.Public.Domain ≠ domain ∨
       fullIdentity.Public.PublisherID ≠ publisherID ∨
       fullIdentity.Address ≠ identityAddress ∨
       fullIdentity.Public.PublicKey = "" then
      (CreateIdentity domain publisherID nowStr validUntilStr keygen).map (fun p => (p, true))
    else
      -- the loaded identity is consistent; if it is expired the code only
      -- notes that the DSS will re-issue an update, and returns it as is
      some ((fullIdentity, privKey), false)

/-- Outcome of the two cryptographic calls made by `handleIdentityUpdate`
(`messenger.DecryptMessage` and `messenger.VerifySender`), together with
the identity payload that `VerifySender` unmarshals from the decrypted
message.  These calls are external collaborators; their results are the
inputs of the handler's control flow. -/
structure IdentityUpdateEnvelope where
  isEncrypted : Bool
  decryptErr : Bool
  isSigned : Bool
  verifyErr : Bool
  payload : PublisherFullIdentity
  deriving Repr, DecidableEq

/-- The slice of publisher state that `handleIdentityUpdate` reads and
writes: the publisher's domain, its full identity and its identity
private key (PEM representation). -/
structure PubIdentityState where
  domain : String
  fullIdentity : PublisherFullIdentity
  identityPrivateKey : String
  deriving Repr, DecidableEq

/-- `handleIdentityUpdate` (src/unnamed/part_002 lines 24-58), embedded
over the outcome of its cryptographic calls.  Each log-and-return branch
returns the state unchanged.  Faithful to the source, the branch that
detects a sender different from the DSS address (lines 50-53) only logs
a warning and does NOT return: execution falls through to the assignment
of the new identity and private key. -/
def handleIdentityUpdate (env : IdentityUpdateEnvelope) (st : PubIdentityState) :
    PubIdentityState :=
  if !env.isEncrypted then st
  else if env.decryptErr then st
  else if !env.isSigned then st
  else if env.verifyErr then st
  else
    -- dssAddress check: warning only, no early return in the source
    { st with
      identityPrivateKey := PrivateKeyFromPem env.payload.PrivateKey
      fullIdentity := env.payload }

/-- `messaging.ConfigAttr`: the two fields `GetConfigValue` reads. -/
structure ConfigAttr where
  Value : String
  Default : String
  deriving Repr, DecidableEq

/-- `GetConfigValue` (src/publisher/Publisher.go lines 76-87).  The Go
map with its two-value lookup (`config, configExists := configMap[attr]`)
is embedded as an association list with `List.lookup`. -/
def GetConfigValue (configMap : List (String × ConfigAttr)) (attrName : String) : String :=
  match configMap.lookup attrName with
  | none => ""
  | some config => if config.Value = "" then config.Default else config.Value

/-- `DefaultDiscoveryInterval` (src/publisher/Publisher.go line 33). -/
def DefaultDiscoveryInterval : Int := 24 * 3600

/-- `DefaultPollInterval` (src/publisher/Publisher.go line 35). -/
def DefaultPollInterval : Int := 24 * 3600

/-- The `Publisher` struct (src/publisher/Publisher.go lines 45-74),
restricted to the fields the claims are about.  Handler fields hold
Go function values; they are embedded with an abstract handler type `H`
(`none` = Go `nil`).  `signPrivateKey` is the PEM representation of the
ECDSA signing key, `none` when the Go pointer is nil.  The two
`...Invocations` counters are observation instrumentation: they record
how many times the heartbeat loop has dispatched the corresponding
callback (the Go code calls the function; the embedding counts the
call). -/
structure Publisher (H : Type) where
  discoverCountdown : Int
  discoveryInterval : Int
  discoveryHandler : Option H
  pollCountdown : Int
  pollInterval : Int
  pollHandler : Option H
  publisherID : String
  isRunning : Bool
  signPrivateKey : Option String
  discoveryInvocations : Nat
  pollInvocations : Nat
  deriving Repr, DecidableEq

/-- `NewPublisher` (src/publisher/Publisher.go lines 333-387), restricted
to the embedded fields.  `keygen` is the result of `ecdsa.GenerateKey`
as a (privatePEM, publicPEM) pair, `none` on failure.  On failure the Go
code only logs an error and continues with a nil `privKey`; the very
next statement, `messenger.EncodeKeys(privKey, &privKey.PublicKey)`,
dereferences that nil pointer and panics, so no publisher value is ever
returned: that path is the `none` result. -/
def NewPublisher (H : Type) (publisherID : String)
    (keygen : Option (String × String)) : Option (Publisher H) :=
  let publisher : Publisher H :=
    { discoverCountdown := 0
      discoveryInterval := DefaultDiscoveryInterval
      discoveryHandler := none
      pollCountdown := 1  -- run discovery before poll
      pollInterval := DefaultPollInterval
      pollHandler := none
      publisherID := publisherID
      isRunning := false
      signPrivateKey := none
      discoveryInvocations := 0
      pollInvocations := 0 }
  match keygen with
  | none => none
  | some (privPem, _pubPem) => some { publisher with signPrivateKey := some privPem }

/-- `SetDiscoveryInterval` (src/publisher/Publisher.go lines 101-108):
the interval field is updated only when `interval > 0`; the handler is
installed unconditionally. -/
def SetDiscoveryInterval (publisher : Publisher H) (interval : Int)
    (handler : Option H) : Publisher H :=
  let publisher1 :=
    if interval > 0 then { publisher with discoveryInterval := interval } else publisher
  { publisher1 with discoveryHandler := handler }

/-- `SetPollingInterval` (src/publisher/Publisher.go lines 160-166):
same shape as `SetDiscoveryInterval`, for the poll fields. -/
def SetPollingInterval (publisher : Publisher H) (interval : Int)
    (handler : Option H) : Publisher H :=
  let publisher1 :=
    if interval > 0 then { publisher with pollInterval := interval } else publisher
  { publisher1 with pollHandler := handler }

/-- The discovery dispatch of one `heartbeatLoop` iteration
(src/publisher/Publisher.go lines 279-282): when the countdown has
reached zero and a handler is registered, the handler is dispatched
(asynchronously, via `go`; recorded by the invocation counter) and the
countdown is reset to the configured interval. -/
def discoveryStep (publisher : Publisher H) : Publisher H :=
  if publisher.discoverCountdown ≤ 0 ∧ publisher.discoveryHandler.isSome then
    { publisher with
      discoverCountdown := publisher.discoveryInterval
      discoveryInvocations := publisher.discoveryInvocations + 1 }
  else publisher

/-- The poll dispatch of one `heartbeatLoop` iteration
(src/publisher/Publisher.go lines 286-289): when the countdown has
reached zero and a handler is registered, the handler is invoked within
the tick (recorded by the invocation counter) and the countdown is reset
to the configured poll interval. -/
def pollStep (publisher : Publisher H) : Publisher H :=
  if publisher.pollCountdown ≤ 0 ∧ publisher.pollHandler.isSome then
    { publisher with
      pollCountdown := publisher.pollInterval
      pollInvocations := publisher.pollInvocations + 1 }
  else publisher

/-- One iteration of `heartbeatLoop` (src/publisher/Publisher.go lines
269-298) after the unconditional republish calls (which do not touch
these fields): the discovery dispatch followed by the unconditional
decrement of the discovery countdown, then the poll dispatch followed by
the unconditional decrement of the poll countdown. -/
def heartbeatTick (publisher : Publisher H) : Publisher H :=
  let p1 := discoveryStep publisher
  let p2 := { p1 with discoverCountdown := p1.discoverCountdown - 1 }
  let p3 := pollStep p2
  { p3 with pollCountdown := p3.pollCountdown - 1 }

/-- `Stop` (src/publisher/Publisher.go lines 234-247).  The returned
`Bool` records whether the call performed the blocking receive on the
exit channel (`<-publisher.exitChannel`), i.e. waited for the heartbeat
loop's exit acknowledgment.  When `isRunning` is false the function only
unlocks the mutex and logs: the state is returned unchanged and no
receive happens. -/
def Stop (publisher : Publisher H) : Publisher H × Bool :=
  if publisher.isRunning then
    ({ publisher with isRunning := false }, true)
  else
    (publisher, false)

/-- Go `strings.Split(s, "/")`: for the one-character separator used by
the sources this is exactly the character-level split on `/`. -/
def stringsSplit (s : String) : List String :=
  (s.data.splitOn '/').map (fun cs => String.mk cs)

/-- Go `strings.Join(elems, "/")`. -/
def stringsJoin (elems : List String) : String :=
  String.intercalate "/" elems

/-- `types.SetInputMessage` as built by `PublishSetInput`. -/
structure SetInputMessage where
  Address : String
  Sender : String
  Timestamp : String
  Value : String
  deriving Repr, DecidableEq

/-- `types.NodeConfigureMessage` as built by `PublishNodeConfigure`;
the attribute map is embedded as an association list. -/
structure NodeConfigureMessage where
  Address : String
  Sender : String
  Timestamp : String
  Attr : List (String × String)
  deriving Repr, DecidableEq

/-- `PublishSetInput` (src/unnamed/part_000 lines 20-48).  The result
pair is (the `error` return value, the message handed to
`messageSigner.PublishObject`): a short address yields the explicit
error and no message; otherwise segment 5 of the destination is replaced
by the set token, the segments are rejoined, and the message is
published (the external `PublishObject` succeeding, its error is nil). -/
def PublishSetInput (destination value sender nowStr : String) :
    Option String × Option SetInputMessage :=
  let segments := stringsSplit destination
  if segments.length < 6 then
    (some ("PublishSetInput: Can't publish SetInput message as the destination address '"
        ++ destination ++ "' is incomplete"), none)
  else
    let segments1 := segments.set 5 MessageTypeSetInput
    let inputAddr := stringsJoin segments1
    (none, some { Address := inputAddr, Sender := sender, Timestamp := nowStr, Value := value })

/-- `PublishNodeConfigure` (src/nodes/PublishNodeConfigure.go lines
16-40).  The Go function returns nothing, so the error component of the
result is always `none`: a short address is dropped with a bare
`return`.  Otherwise segment 3 of the destination is replaced by the
configure token and the message is published. -/
def PublishNodeConfigure (destinationAddress : String) (attr : List (String × String))
    (sender nowStr : String) : Option String × Option NodeConfigureMessage :=
  let segments := stringsSplit destinationAddress
  if segments.length < 4 then
    (none, none)
  else
    let segments1 := segments.set 3 MessageTypeConfigure
    let configAddr := stringsJoin segments1
    (none, some { Address := configAddr, Sender := sender, Timestamp := nowStr, Attr := attr })

end IotConnect

namespace IotConnect

/-- C9: for every configuration map and attribute name, `GetConfigValue`
returns the empty string when the attribute is absent from the map, the
attribute's `Default` when its `Value` is the empty string, and the
attribute's `Value` otherwise. -/
theorem getConfigValue_cases (configMap : List (String × ConfigAttr))
    (attrName : String) (config : ConfigAttr) :
    (configMap.lookup attrName = none → GetConfigValue configMap attrName = "") ∧
    (configMap.lookup attrName = some config → config.Value = "" →
      GetConfigValue configMap attrName = config.Default) ∧
    (configMap.lookup attrName = some config → config.Value ≠ "" →
      GetConfigValue configMap attrName = config.Value) := by
  unfold GetConfigValue
  refine ⟨fun h => by rw [h], fun h hv => ?_, fun h hv => ?_⟩ <;> rw [h] <;> simp [hv]

/-- C9 witness: the three cases of `getConfigValue_cases` at concrete
maps and attributes. -/
theorem getConfigValue_cases_witness :
    GetConfigValue [] "x" = "" ∧
    GetConfigValue [("a", ⟨"", "dflt"⟩)] "a" = "dflt" ∧
    GetConfigValue [("a", ⟨"val", "dflt"⟩)] "a" = "val" :=
  ⟨(getConfigValue_cases [] "x" ⟨"", ""⟩).1 (by decide),
   (getConfigValue_cases [("a", ⟨"", "dflt"⟩)] "a" ⟨"", "dflt"⟩).2.1 (by decide) (by decide),
   (getConfigValue_cases [("a", ⟨"val", "dflt"⟩)] "a" ⟨"val", "dflt"⟩).2.2 (by decide) (by decide)⟩

/-- C10: `SetDiscoveryInterval` and `SetPollingInterval` with an interval
≤ 0 leave the previously configured interval (and every other field)
unchanged while still installing the supplied handler; with an interval
> 0 both the interval and the handler are updated and nothing else. -/
theorem setInterval_frame {H : Type} (publisher : Publisher H) (interval : Int)
    (handler : Option H) :
    (interval ≤ 0 →
      SetDiscoveryInterval publisher interval handler
        = { publisher with discoveryHandler := handler } ∧
      SetPollingInterval publisher interval handler
        = { publisher with pollHandler := handler }) ∧
    (0 < interval →
      SetDiscoveryInterval publisher interval handler
        = { publisher with discoveryInterval := interval, discoveryHandler := handler } ∧
      SetPollingInterval publisher interval handler
        = { publisher with pollInterval := interval, pollHandler := handler }) := by
  unfold SetDiscoveryInterval SetPollingInterval
  constructor
  · intro h
    rw [if_neg (by omega), if_neg (by omega)]
    exact ⟨rfl, rfl⟩
  · intro h
    rw [if_pos h, if_pos h]
    exact ⟨rfl, rfl⟩

/-- C10 witness: both branches of `setInterval_frame` at a concrete
publisher, with interval -1 (≤ 0) and interval 5 (> 0). -/
theorem setInterval_frame_witness :
    SetDiscoveryInterval (H := Nat) ⟨0, 10, none, 0, 10, none, "p", false, none, 0, 0⟩
        (-1) (some 7)
      = ⟨0, 10, some 7, 0, 10, none, "p", false, none, 0, 0⟩ ∧
    SetPollingInterval (H := Nat) ⟨0, 10, none, 0, 10, none, "p", false, none, 0, 0⟩
        5 (some 7)
      = ⟨0, 10, none, 0, 5, some 7, "p", false, none, 0, 0⟩ :=
  ⟨((setInterval_frame ⟨0, 10, none, 0, 10, none, "p", false, none, 0, 0⟩ (-1) (some 7)).1
      (by decide)).1,
   ((setInterval_frame ⟨0, 10, none, 0, 10, none, "p", false, none, 0, 0⟩ 5 (some 7)).2
      (by decide)).2⟩

/-- C7: `Stop` on a running publisher clears the running flag (and
nothing else) and performs the blocking wait for the heartbeat loop's
exit acknowledgment; `Stop` on a stopped publisher returns the state
unchanged and does not wait; and a second `Stop` is always a
non-blocking no-op (idempotence). -/
theorem stop_idempotent {H : Type} (publisher : Publisher H) :
    (publisher.isRunning = true →
      Stop publisher = ({ publisher with isRunning := false }, true)) ∧
    (publisher.isRunning = false → Stop publisher = (publisher, false)) ∧
    Stop (Stop publisher).1 = ((Stop publisher).1, false) := by
  refine ⟨fun h => by simp [Stop, h], fun h => by simp [Stop, h], ?_⟩
  by_cases h : publisher.isRunning = true
  · simp [Stop, h]
  · simp only [Bool.not_eq_true] at h
    simp [Stop, h]

/-- C7 witness: `stop_idempotent` at a concrete running and a concrete
stopped publisher. -/
theorem stop_idempotent_witness :
    Stop (H := Nat) ⟨0, 10, none, 0, 10, none, "p", true, none, 0, 0⟩
      = (⟨0, 10, none, 0, 10, none, "p", false, none, 0, 0⟩, true) ∧
    Stop (H := Nat) ⟨0, 10, none, 0, 10, none, "p", false, none, 0, 0⟩
      = (⟨0, 10, none, 0, 10, none, "p", false, none, 0, 0⟩, false) :=
  ⟨(stop_idempotent ⟨0, 10, none, 0, 10, none, "p", true, none, 0, 0⟩).1 (by decide),
   (stop_idempotent ⟨0, 10, none, 0, 10, none, "p", false, none, 0, 0⟩).2.1 (by decide)⟩

/-- C5: `IsIdentityExpired` is true exactly when the current timestamp
(in the fixed zero-padded format, supplied as `nowStr`) lexically
exceeds the identity's `ValidUntil` string; in particular, at the
current time 2021-01-02T15:04:05.000-0700 a `ValidUntil` one second in
the past yields true and a `ValidUntil` one year in the future yields
false. -/
theorem isIdentityExpired_lexical (nowStr : String)
    (identity : PublisherPublicIdentity) :
    (IsIdentityExpired nowStr identity = true ↔
      compare nowStr identity.ValidUntil = Ordering.gt) ∧
    IsIdentityExpired "2021-01-02T15:04:05.000-0700"
      ⟨"d", "i", "l", "o", "pk", "p", "ts", "2021-01-02T15:04:04.000-0700"⟩ = true ∧
    IsIdentityExpired "2021-01-02T15:04:05.000-0700"
      ⟨"d", "i", "l", "o", "pk", "p", "ts", "2022-01-02T15:04:05.000-0700"⟩ = false := by
  refine ⟨?_, by decide, by decide⟩
  unfold IsIdentityExpired
  exact decide_eq_true_iff

/-- C3: key-generation failure is fatal.  `CreateIdentity` with a failed
keygen produces no identity (the Go code panics), `NewPublisher` with a
failed keygen produces no publisher (the Go code dereferences the nil
key and panics before returning), and every publisher that
`NewPublisher` does return carries a signing key. -/
theorem keygen_failure_fatal (H : Type) (domain publisherID nowStr validUntilStr : String)
    (keygen : Option (String × String)) (publisher : Publisher H) :
    CreateIdentity domain publisherID nowStr validUntilStr none = none ∧
    NewPublisher H publisherID none = none ∧
    (NewPublisher H publisherID keygen = some publisher →
      publisher.signPrivateKey.isSome = true) := by
  refine ⟨rfl, rfl, fun h => ?_⟩
  match keygen with
  | none => exact absurd h (by simp [NewPublisher])
  | some (privPem, pubPem) =>
    simp only [NewPublisher, Option.some.injEq] at h
    rw [← h]
    rfl

/-- C3 witness: `keygen_failure_fatal` applied at a concrete successful
keygen, showing the returned publisher holds the generated signing
key. -/
theorem keygen_failure_fatal_witness :
    (⟨0, 24 * 3600, none, 1, 24 * 3600, none, "p", false, some "privkey", 0, 0⟩ :
      Publisher Nat).signPrivateKey.isSome = true :=
  (keygen_failure_fatal Nat "d" "p" "now" "until" (some ("privkey", "pubkey"))
    ⟨0, 24 * 3600, none, 1, 24 * 3600, none, "p", false, some "privkey", 0, 0⟩).2.2
    (by decide)

/-- C4: `SetupPublisherIdentity` regenerates and persists a fresh
self-signed identity exactly when the load failed, or the loaded domain
or publisherID mismatch the requested ones, or the stored address
differs from the deterministic identity address, or the public key is
empty; a consistently loaded identity — expired or not — is returned
unchanged, with no regeneration. -/
theorem setupPublisherIdentity_exact
    (loadResult : Option (PublisherFullIdentity × String))
    (domain publisherID nowStr validUntilStr : String)
    (keygen : Option (String × String))
    (fullIdentity : PublisherFullIdentity) (privKey : String) :
    (loadResult = none →
      SetupPublisherIdentity loadResult domain publisherID nowStr validUntilStr keygen
        = (CreateIdentity domain publisherID nowStr validUntilStr keygen).map
            (fun p => (p, true))) ∧
    (loadResult = some (fullIdentity, privKey) →
      (fullIdentity.Public.Domain ≠ domain ∨
        fullIdentity.Public.PublisherID ≠ publisherID ∨
        fullIdentity.Address ≠ MakePublisherIdentityAddress domain publisherID ∨
        fullIdentity.Public.PublicKey = "") →
      SetupPublisherIdentity loadResult domain publisherID nowStr validUntilStr keygen
        = (CreateIdentity domain publisherID nowStr validUntilStr keygen).map
            (fun p => (p, true))) ∧
    (loadResult = some (fullIdentity, privKey) →
      fullIdentity.Public.Domain = domain →
      fullIdentity.Public.PublisherID = publisherID →
      fullIdentity.Address = MakePublisherIdentityAddress domain publisherID →
      fullIdentity.Public.PublicKey ≠ "" →
      SetupPublisherIdentity loadResult domain publisherID nowStr validUntilStr keygen
        = some ((fullIdentity, privKey), false)) := by
  refine ⟨fun h => by subst h; rfl, fun h hbad => ?_, fun h h1 h2 h3 h4 => ?_⟩
  · subst h
    show (if fullIdentity.Public.Domain ≠ domain ∨
            fullIdentity.Public.PublisherID ≠ publisherID ∨
            fullIdentity.Address ≠ MakePublisherIdentityAddress domain publisherID ∨
            fullIdentity.Public.PublicKey = "" then
          (CreateIdentity domain publisherID nowStr validUntilStr keygen).map
            (fun p => (p, true))
        else some ((fullIdentity, privKey), false)) = _
    rw [if_pos hbad]
  · subst h
    show (if fullIdentity.Public.Domain ≠ domain ∨
            fullIdentity.Public.PublisherID ≠ publisherID ∨
            fullIdentity.Address ≠ MakePublisherIdentityAddress domain publisherID ∨
            fullIdentity.Public.PublicKey = "" then
          (CreateIdentity domain publisherID nowStr validUntilStr keygen).map
            (fun p => (p, true))
        else some ((fullIdentity, privKey), false)) = _
    rw [if_neg (by push_neg; exact ⟨h1, h2, h3, h4⟩)]

/-- C4 witness: `setupPublisherIdentity_exact` at a failed load (fresh
identity regenerated and persisted) and at a consistent load whose
identity is expired (returned unchanged, not regenerated). -/
theorem setupPublisherIdentity_exact_witness :
    SetupPublisherIdentity none "d" "p" "now" "until" (some ("k", "K"))
      = some ((⟨"d/p/$identity",
                ⟨"d", "p", "local", "", "K", "p", "now", "until"⟩,
                "sig(K,k)", "p", "now", "", "k"⟩, "k"), true) ∧
    IsIdentityExpired "2021-01-02T15:04:05.000-0700"
      ⟨"d", "i", "l", "o", "K", "p", "ts", "2020-01-02T15:04:05.000-0700"⟩ = true ∧
    SetupPublisherIdentity
      (some (⟨"d/p/$identity",
              ⟨"d", "i", "l", "o", "K", "p", "ts", "2020-01-02T15:04:05.000-0700"⟩,
              "sig", "p", "ts", "", "k"⟩, "k"))
      "d" "p" "2021-01-02T15:04:05.000-0700" "until" (some ("k2", "K2"))
      = some ((⟨"d/p/$identity",
                ⟨"d", "i", "l", "o", "K", "p", "ts", "2020-01-02T15:04:05.000-0700"⟩,
                "sig", "p", "ts", "", "k"⟩, "k"), false) :=
  ⟨((setupPublisherIdentity_exact none "d" "p" "now" "until" (some ("k", "K"))
      ⟨"", ⟨"", "", "", "", "", "", "", ""⟩, "", "", "", "", ""⟩ "").1 rfl).trans (by decide),
   by decide,
   (setupPublisherIdentity_exact
      (some (⟨"d/p/$identity",
              ⟨"d", "i", "l", "o", "K", "p", "ts", "2020-01-02T15:04:05.000-0700"⟩,
              "sig", "p", "ts", "", "k"⟩, "k"))
      "d" "p" "2021-01-02T15:04:05.000-0700" "until" (some ("k2", "K2"))
      ⟨"d/p/$identity",
       ⟨"d", "i", "l", "o", "K", "p", "ts", "2020-01-02T15:04:05.000-0700"⟩,
       "sig", "p", "ts", "", "k"⟩ "k").2.2 rfl (by decide) (by decide) (by decide) (by decide)⟩

/-- C2 (amended): a destination address with fewer than the minimum
segment count (6 for input-set, 4 for node-configure) publishes no
message under either operation; `PublishSetInput` additionally returns
an explicit error to its caller, while `PublishNodeConfigure` — whose Go
signature has no error result — never returns an error, so short
addresses are dropped silently there. -/
theorem publish_short_address (destination value sender nowStr : String)
    (destination2 : String) (attr : List (String × String)) :
    ((stringsSplit destination).length < 6 →
      (PublishSetInput destination value sender nowStr).1.isSome = true ∧
      (PublishSetInput destination value sender nowStr).2 = none) ∧
    ((stringsSplit destination2).length < 4 →
      PublishNodeConfigure destination2 attr sender nowStr = (none, none)) ∧
    (PublishNodeConfigure destination2 attr sender nowStr).1 = none := by
  refine ⟨fun h => ?_, fun h => ?_, ?_⟩
  · unfold PublishSetInput
    rw [if_pos h]
    exact ⟨rfl, rfl⟩
  · unfold PublishNodeConfigure
    rw [if_pos h]
  · unfold PublishNodeConfigure
    by_cases h : (stringsSplit destination2).length < 4
    · rw [if_pos h]
    · rw [if_neg h]

/-- C2 counterexample to the claim as stated: the three-segment address
`a/b/c` is below both minimums, yet `PublishNodeConfigure` returns no
error to the caller (its error component — the Go function's absent
return value — is `none`), so the explicit-error half of the claim fails
for node-configure. -/
theorem publishNodeConfigure_short_address_no_error :
    (stringsSplit "a/b/c").length < 4 ∧
    (PublishNodeConfigure "a/b/c" [] "s" "t").1 = none ∧
    (PublishNodeConfigure "a/b/c" [] "s" "t").2 = none := by
  decide

/-- C2 witness: `publish_short_address` at the concrete two-segment
destination `a/b`. -/
theorem publish_short_address_witness :
    ((PublishSetInput "a/b" "v" "s" "t").1.isSome = true ∧
      (PublishSetInput "a/b" "v" "s" "t").2 = none) ∧
    PublishNodeConfigure "a/b" [] "s" "t" = (none, none) :=
  ⟨(publish_short_address "a/b" "v" "s" "t" "a/b" []).1 (by decide),
   (publish_short_address "a/b" "v" "s" "t" "a/b" []).2.1 (by decide)⟩

/-- C8: on a destination with at least the minimum segment count,
`PublishSetInput` publishes (with no error) to the address whose segment
list is the destination's with exactly index 5 replaced by the set
token, and `PublishNodeConfigure` to the destination's with exactly
index 3 replaced by the configure token: the replaced index holds the
message-type token and every other segment is reproduced unchanged
(lengths included). -/
theorem publish_replaces_one_segment (destination value sender nowStr : String)
    (destination2 : String) (attr : List (String × String)) :
    (6 ≤ (stringsSplit destination).length →
      PublishSetInput destination value sender nowStr
        = (none, some ⟨stringsJoin ((stringsSplit destination).set 5 MessageTypeSetInput),
                       sender, nowStr, value⟩) ∧
      ((stringsSplit destination).set 5 MessageTypeSetInput)[5]?
          = some MessageTypeSetInput ∧
      (∀ i, i ≠ 5 → ((stringsSplit destination).set 5 MessageTypeSetInput)[i]?
          = (stringsSplit destination)[i]?) ∧
      ((stringsSplit destination).set 5 MessageTypeSetInput).length
          = (stringsSplit destination).length) ∧
    (4 ≤ (stringsSplit destination2).length →
      PublishNodeConfigure destination2 attr sender nowStr
        = (none, some ⟨stringsJoin ((stringsSplit destination2).set 3 MessageTypeConfigure),
                       sender, nowStr, attr⟩) ∧
      ((stringsSplit destination2).set 3 MessageTypeConfigure)[3]?
          = some MessageTypeConfigure ∧
      (∀ i, i ≠ 3 → ((stringsSplit destination2).set 3 MessageTypeConfigure)[i]?
          = (stringsSplit destination2)[i]?) ∧
      ((stringsSplit destination2).set 3 MessageTypeConfigure).length
          = (stringsSplit destination2).length) := by
  constructor
  · intro h
    refine ⟨?_, List.getElem?_set_self (by omega), fun i hi => ?_, List.length_set ..⟩
    · unfold PublishSetInput
      rw [if_neg (by omega)]
    · exact List.getElem?_set_ne (fun hiq => hi hiq.symm)
  · intro h
    refine ⟨?_, List.getElem?_set_self (by omega), fun i hi => ?_, List.length_set ..⟩
    · unfold PublishNodeConfigure
      rw [if_neg (by omega)]
    · exact List.getElem?_set_ne (fun hiq => hi hiq.symm)

/-- C8 witness: `publish_replaces_one_segment` at the concrete
six-segment destination `dom/pub/node/switch/0/$input` and four-segment
destination `dom/pub/node/$node`. -/
theorem publish_replaces_one_segment_witness :
    PublishSetInput "dom/pub/node/switch/0/$input" "v" "s" "t"
      = (none, some ⟨"dom/pub/node/switch/0/$set", "s", "t", "v"⟩) ∧
    PublishNodeConfigure "dom/pub/node/$node" [] "s" "t"
      = (none, some ⟨"dom/pub/node/$configure", "s", "t", []⟩) :=
  ⟨(((publish_replaces_one_segment "dom/pub/node/switch/0/$input" "v" "s" "t"
        "dom/pub/node/$node" []).1 (by decide)).1).trans (by decide),
   (((publish_replaces_one_segment "dom/pub/node/switch/0/$input" "v" "s" "t"
        "dom/pub/node/$node" []).2 (by decide)).1).trans (by decide)⟩

/-- Helper: a heartbeat tick whose poll countdown is still positive does
not invoke the poll callback; it only decrements the countdown, leaving
the interval, the handler and the invocation count untouched. -/
theorem heartbeatTick_noFire {H : Type} (p : Publisher H) (h : 0 < p.pollCountdown) :
    (heartbeatTick p).pollCountdown = p.pollCountdown - 1 ∧
    (heartbeatTick p).pollInvocations = p.pollInvocations ∧
    (heartbeatTick p).pollInterval = p.pollInterval ∧
    (heartbeatTick p).pollHandler = p.pollHandler := by
  unfold heartbeatTick discoveryStep pollStep
  split
  all_goals dsimp only
  all_goals rw [if_neg (by rintro ⟨hc, -⟩; omega)]
  all_goals exact ⟨rfl, rfl, rfl, rfl⟩

/-- Helper: a heartbeat tick that starts with the poll countdown at or
below zero and a registered handler invokes the callback exactly once,
and ends with the countdown at the configured interval minus the
unconditional end-of-tick decrement. -/
theorem heartbeatTick_fire {H : Type} (p : Publisher H) (h : p.pollCountdown ≤ 0)
    (hh : p.pollHandler.isSome = true) :
    (heartbeatTick p).pollCountdown = p.pollInterval - 1 ∧
    (heartbeatTick p).pollInvocations = p.pollInvocations + 1 ∧
    (heartbeatTick p).pollInterval = p.pollInterval ∧
    (heartbeatTick p).pollHandler = p.pollHandler := by
  unfold heartbeatTick discoveryStep pollStep
  split
  all_goals dsimp only
  all_goals rw [if_pos ⟨h, hh⟩]
  all_goals exact ⟨rfl, rfl, rfl, rfl⟩

/-- Helper: as long as the poll countdown stays positive, iterating the
heartbeat tick only subtracts from the countdown and never invokes the
poll callback. -/
theorem heartbeatTick_iterate_noFire {H : Type} (j : Nat) (p : Publisher H)
    (h : (j : Int) ≤ p.pollCountdown) :
    (heartbeatTick^[j] p).pollCountdown = p.pollCountdown - (j : Int) ∧
    (heartbeatTick^[j] p).pollInvocations = p.pollInvocations ∧
    (heartbeatTick^[j] p).pollInterval = p.pollInterval ∧
    (heartbeatTick^[j] p).pollHandler = p.pollHandler := by
  induction j generalizing p with
  | zero => exact ⟨by simp, rfl, rfl, rfl⟩
  | succ m ih =>
    have h0 : 0 < p.pollCountdown := by push_cast at h; omega
    obtain ⟨t1, t2, t3, t4⟩ := heartbeatTick_noFire p h0
    rw [Function.iterate_succ_apply]
    obtain ⟨i1, i2, i3, i4⟩ := ih (heartbeatTick p) (by rw [t1]; push_cast at h ⊢; omega)
    refine ⟨?_, ?_, ?_, ?_⟩
    · rw [i1, t1]; push_cast; ring
    · rw [i2, t2]
    · rw [i3, t3]
    · rw [i4, t4]

/-- Helper: one full poll period.  From the state the loop is in right
after an invocation (countdown = interval - 1), `n` ticks perform
exactly one further invocation and return the countdown to
interval - 1. -/
theorem heartbeatTick_period {H : Type} (n : Nat) (p : Publisher H) (h1 : 1 ≤ n)
    (hInt : p.pollInterval = (n : Int)) (hCd : p.pollCountdown = (n : Int) - 1)
    (hh : p.pollHandler.isSome = true) :
    (heartbeatTick^[n] p).pollCountdown = (n : Int) - 1 ∧
    (heartbeatTick^[n] p).pollInvocations = p.pollInvocations + 1 ∧
    (heartbeatTick^[n] p).pollInterval = (n : Int) ∧
    (heartbeatTick^[n] p).pollHandler = p.pollHandler := by
  obtain ⟨m, rfl⟩ : ∃ m, n = m + 1 := ⟨n - 1, by omega⟩
  obtain ⟨i1, i2, i3, i4⟩ :=
    heartbeatTick_iterate_noFire m p (by rw [hCd]; push_cast; omega)
  rw [Function.iterate_succ_apply']
  have hc0 : (heartbeatTick^[m] p).pollCountdown ≤ 0 := by
    rw [i1, hCd]; push_cast; omega
  have hh0 : (heartbeatTick^[m] p).pollHandler.isSome = true := by rw [i4]; exact hh
  obtain ⟨f1, f2, f3, f4⟩ := heartbeatTick_fire _ hc0 hh0
  refine ⟨?_, ?_, ?_, ?_⟩
  · rw [f1, i3, hInt]
  · rw [f2, i2]
  · rw [f3, i3]
    exact hInt
  · rw [f4, i4]

/-- Helper: `k` full poll periods from a post-invocation state perform
exactly `k` invocations and return to a post-invocation state. -/
theorem heartbeatTick_multi_period {H : Type} (k n : Nat) :
    ∀ p : Publisher H, 1 ≤ n → p.pollInterval = (n : Int) →
    p.pollCountdown = (n : Int) - 1 → p.pollHandler.isSome = true →
    (heartbeatTick^[k * n] p).pollInvocations = p.pollInvocations + k ∧
    (heartbeatTick^[k * n] p).pollCountdown = (n : Int) - 1 ∧
    (heartbeatTick^[k * n] p).pollInterval = (n : Int) ∧
    (heartbeatTick^[k * n] p).pollHandler = p.pollHandler := by
  induction k with
  | zero =>
    intro p h1 hInt hCd hh
    rw [Nat.zero_mul]
    exact ⟨by simp, hCd, hInt, rfl⟩
  | succ m ih =>
    intro p h1 hInt hCd hh
    obtain ⟨a1, a2, a3, a4⟩ := heartbeatTick_period n p h1 hInt hCd hh
    have hh2 : (heartbeatTick^[n] p).pollHandler.isSome = true := by rw [a4]; exact hh
    obtain ⟨b1, b2, b3, b4⟩ := ih (heartbeatTick^[n] p) h1 a3 a1 hh2
    rw [Nat.succ_mul, Function.iterate_add_apply]
    refine ⟨?_, b2, b3, by rw [b4, a4]⟩
    rw [b1, a2]
    omega

/-- C6: with a registered poll handler and configured poll interval
n ≥ 1, the heartbeat loop invokes the poll callback exactly once per n
elapsed ticks — k invocations in k·n ticks from a post-invocation state,
and no invocation at all on a tick whose countdown is still positive (so
not once per tick when n > 1) — and at each invocation the poll step
resets the countdown to n (the tick then applies its unconditional
decrement). -/
theorem heartbeatLoop_poll_period {H : Type} (p : Publisher H) (n k : Nat) (h1 : 1 ≤ n)
    (hInt : p.pollInterval = (n : Int)) (hCd : p.pollCountdown = (n : Int) - 1)
    (hh : p.pollHandler.isSome = true) :
    ((heartbeatTick^[k * n] p).pollInvocations = p.pollInvocations + k ∧
      (heartbeatTick^[k * n] p).pollCountdown = (n : Int) - 1 ∧
      (heartbeatTick^[k * n] p).pollInterval = (n : Int) ∧
      (heartbeatTick^[k * n] p).pollHandler = p.pollHandler) ∧
    (∀ q : Publisher H, q.pollCountdown ≤ 0 → q.pollHandler.isSome = true →
      (pollStep q).pollCountdown = q.pollInterval ∧
      (pollStep q).pollInvocations = q.pollInvocations + 1) ∧
    (∀ q : Publisher H, 0 < q.pollCountdown →
      (heartbeatTick q).pollInvocations = q.pollInvocations) := by
  refine ⟨heartbeatTick_multi_period k n p h1 hInt hCd hh,
    fun q hq hqh => ?_, fun q hq => (heartbeatTick_noFire q hq).2.1⟩
  unfold pollStep
  rw [if_pos ⟨hq, hqh⟩]
  exact ⟨rfl, rfl⟩

/-- C6 witness: `heartbeatLoop_poll_period` at a concrete publisher with
poll interval 2 and a registered handler: 6 ticks perform exactly 3 poll
invocations, not 6. -/
theorem heartbeatLoop_poll_period_witness :
    (heartbeatTick^[3 * 2] (⟨0, 5, none, 1, 2, some 9, "p", true, none, 0, 0⟩ :
        Publisher Nat)).pollInvocations = 3 ∧
    (heartbeatTick^[3 * 2] (⟨0, 5, none, 1, 2, some 9, "p", true, none, 0, 0⟩ :
        Publisher Nat)).pollCountdown = 1 :=
  ⟨((heartbeatLoop_poll_period ⟨0, 5, none, 1, 2, some 9, "p", true, none, 0, 0⟩ 2 3
      (by decide) (by decide) (by decide) (by decide)).1).1,
   ((heartbeatLoop_poll_period ⟨0, 5, none, 1, 2, some 9, "p", true, none, 0, 0⟩ 2 3
      (by decide) (by decide) (by decide) (by decide)).1).2.1⟩

/-- C1: the code contradicts the claim (and its own doc comment, "The
message must be encrypted and signed by the DSS or it will be
discarded").  A failing input: an encrypted, successfully decrypted,
validly signed identity update whose `Sender` is `test/rogue/$identity`
— not the DSS address `test/$dss/$identity` — still replaces the
publisher's full identity and identity private key, because the sender
check at src/unnamed/part_002 lines 50-53 only logs a warning and is
missing a return. -/
theorem handleIdentityUpdate_sender_mismatch_still_applies :
    (⟨"test/rogue/$identity", ⟨"test", "rogue", "l", "o", "RK", "rogue", "ts", "vu"⟩,
      "sig", "rogue", "ts", "test/rogue/$identity", "ROGUEPRIV"⟩ :
        PublisherFullIdentity).Sender
      ≠ MakePublisherIdentityAddress "test" DSSPublisherID ∧
    handleIdentityUpdate
      ⟨true, false, true, false,
       ⟨"test/rogue/$identity", ⟨"test", "rogue", "l", "o", "RK", "rogue", "ts", "vu"⟩,
        "sig", "rogue", "ts", "test/rogue/$identity", "ROGUEPRIV"⟩⟩
      ⟨"test",
       ⟨"test/p/$identity", ⟨"test", "p", "l", "o", "PK", "p", "ts", "vu"⟩,
        "sig0", "p", "ts", "", "OLDPRIV"⟩, "OLDPRIV"⟩
      = ⟨"test",
         ⟨"test/rogue/$identity", ⟨"test", "rogue", "l", "o", "RK", "rogue", "ts", "vu"⟩,
          "sig", "rogue", "ts", "test/rogue/$identity", "ROGUEPRIV"⟩, "ROGUEPRIV"⟩ := by
  decide

end IotConnect
